import Mathlib

/-!
Shallow embedding of the Luxe-Bite order server core (order endpoints,
payment verification adapter, broadcast hub, admin-notification persistence,
login-attempt tracker) from the Express server source, together with
theorems settling the specification claims.

JavaScript numbers are modelled as `ℚ`; a value that is `null`, `NaN` or
non-finite is modelled as `none : Option ℚ`.  Strings stay `String`.
-/

namespace LuxeBite

/-- JS `String.prototype.trim` on a character list: drop whitespace from
both ends. -/
def trimChars (l : List Char) : List Char :=
  ((l.dropWhile Char.isWhitespace).reverse.dropWhile Char.isWhitespace).reverse

/-- Server `sanitizeString`: trim, truncate to `maxLength`, and strip
the characters `<` and `>`. -/
def sanitizeString (s : String) (maxLength : Nat) : String :=
  (((trimChars s.toList).take maxLength).filter
    (fun c => !(c == '<' || c == '>'))).asString

/-- Server `sanitizeNumber`: `null` for a non-finite input, otherwise
clamp into `[lo, hi]` (JS `Math.max(lo, Math.min(hi, parsed))`). -/
def sanitizeNumber (num : Option ℚ) (lo hi : ℚ) : Option ℚ :=
  num.map (fun p => max lo (min hi p))

/-- JS `Math.round`: round half toward positive infinity, i.e. the floor of
`q + 1/2`. -/
def jsRound (q : ℚ) : ℤ :=
  (q + 1/2).floor

/-- A persisted order row, with the columns the order endpoints read. -/
structure OrderRow where
  user_id : Option String
  status : String
  customer_name : String
  customer_phone : String
  total : Option ℚ
  deriving Repr, DecidableEq

/-- The orders table, as an association list keyed by order id. -/
abbrev OrderDb := List (String × OrderRow)

/-- The row lookup `SELECT ... FROM orders WHERE id = ... LIMIT 1`. -/
def storeGet (db : OrderDb) (id : String) : Option OrderRow :=
  (db.find? (fun p => p.1 == id)).map Prod.snd

/-- The statement `UPDATE orders SET status = ... WHERE id = ...`: rewrites the
status of every row whose key matches, leaves the rest alone. -/
def storeSetStatus (db : OrderDb) (id status : String) : OrderDb :=
  db.map (fun p => if p.1 == id then (p.1, { p.2 with status := status }) else p)

/-- An event object handed to `broadcast` (serialized to one SSE frame) and,
for cancellations, also to `createAdminNotification`. -/
structure Event where
  type : String
  order_id : Option String := none
  status : Option String := none
  customer_name : Option String := none
  customer_phone : Option String := none
  total : Option ℚ := none
  deriving Repr, DecidableEq

/-- The `order_cancelled` payload built by both cancellation paths. -/
def cancelledPayload (id : String) (o : OrderRow) : Event :=
  { type := "order_cancelled", order_id := some id,
    customer_name := some o.customer_name,
    customer_phone := some o.customer_phone,
    total := o.total }

/-- The INSERT into `admin_notifications` inside `createAdminNotification`:
it writes one row, or fails (`insertFails` models a store error). -/
def adminNotificationInsert (payload : Event) (insertFails : Bool) :
    Except String (List Event) :=
  if insertFails then Except.error "insert failed" else Except.ok [payload]

/-- Function `createAdminNotification`: runs the INSERT and catches any error (the
handler only logs it), so the caller always gets the rows actually written —
empty when the insert failed — and never an error. -/
def createAdminNotification (payload : Event) (insertFails : Bool) : List Event :=
  match adminNotificationInsert payload insertFails with
  | Except.ok rows => rows
  | Except.error _ => []

/-- Outcome of one request to `PATCH /api/orders/:id/status` or
`PATCH /api/orders/:id/cancel`: HTTP status code of the response, the orders
table afterwards, the events broadcast, the admin-notification insert
attempts, and the admin-notification rows actually written. -/
structure StatusResp where
  code : Nat
  db : OrderDb
  events : List Event
  notifAttempts : List Event
  notifRows : List Event
  deriving Repr

/-- The target statuses accepted by `PATCH /api/orders/:id/status`. -/
def allowedStatuses : List String :=
  ["pending", "preparing", "ready", "out_for_delivery", "delivered", "cancelled"]

/-- Handler of `PATCH /api/orders/:id/status` (after the staff auth middleware):
reject a target status outside `allowedStatuses`; read the current row only
when the target is `cancelled` (404 when absent); update the status; respond
`{ok: true}`; broadcast `order_status_updated`; on `cancelled` additionally
broadcast `order_cancelled` and write one admin notification.
`notifFails` models a failing notification INSERT (caught inside
`createAdminNotification`). -/
def patchOrderStatus (db : OrderDb) (id status : String) (notifFails : Bool) :
    StatusResp :=
  if !(allowedStatuses.contains status) then
    { code := 400, db := db, events := [], notifAttempts := [], notifRows := [] }
  else if status == "cancelled" then
    match storeGet db id with
    | none =>
      { code := 404, db := db, events := [], notifAttempts := [], notifRows := [] }
    | some o =>
      let db' := storeSetStatus db id status
      let payload := cancelledPayload id o
      { code := 200, db := db',
        events := [{ type := "order_status_updated", order_id := some id,
                     status := some status }, payload],
        notifAttempts := [payload],
        notifRows := createAdminNotification payload notifFails }
  else
    { code := 200, db := storeSetStatus db id status,
      events := [{ type := "order_status_updated", order_id := some id,
                   status := some status }],
      notifAttempts := [], notifRows := [] }

/-- Handler of `PATCH /api/orders/:id/cancel` (after the auth middleware; `userId` is the
id of the authenticated caller): 404 when the order does not exist, 403 when the
caller is not the owner, 400 when the status is not `pending`; otherwise set
the status to `cancelled`, respond `{ok: true}`, broadcast
`order_status_updated` then `order_cancelled`, and write one admin
notification. -/
def cancelOrder (db : OrderDb) (id : String) (userId : String)
    (notifFails : Bool) : StatusResp :=
  match storeGet db id with
  | none =>
    { code := 404, db := db, events := [], notifAttempts := [], notifRows := [] }
  | some o =>
    if o.user_id ≠ some userId then
      { code := 403, db := db, events := [], notifAttempts := [], notifRows := [] }
    else if o.status ≠ "pending" then
      { code := 400, db := db, events := [], notifAttempts := [], notifRows := [] }
    else
      let payload := cancelledPayload id o
      { code := 200, db := storeSetStatus db id "cancelled",
        events := [{ type := "order_status_updated", order_id := some id,
                     status := some "cancelled" }, payload],
        notifAttempts := [payload],
        notifRows := createAdminNotification payload notifFails }

/-- The fulfillment state machine of the specification: the chain
`pending → preparing → ready → out_for_delivery → delivered`, plus staff
cancellation from any non-terminal state.  This definition follows the
words of the SPEC (for comparison with the handler above), not the source. -/
def specEdge (cur next : String) : Bool :=
  [("pending", "preparing"), ("preparing", "ready"),
    ("ready", "out_for_delivery"),
    ("out_for_delivery", "delivered")].contains (cur, next)
  || (next == "cancelled" && !(cur == "delivered" || cur == "cancelled"))

/-! ### JS value helpers used by the order-creation handler -/

/-- Truthiness of a JS number-or-null (`null`, `NaN` and `0` are falsy). -/
def jsNumTruthy (n : Option ℚ) : Bool :=
  match n with
  | none => false
  | some q => q ≠ 0

/-- JS `x <= 0` where `x` may be `null` (`null` coerces to `0`, so the
comparison is true). -/
def jsLeZero (n : Option ℚ) : Bool :=
  match n with
  | none => true
  | some q => q ≤ 0

/-- JS `x || null` on a string-or-null: the empty string is falsy. -/
def jsStringOrNull (o : Option String) : Option String :=
  match o with
  | none => none
  | some s => if s == "" then none else some s

/-! ### Payment verification adapter (`verifyPaystackReference`) -/

/-- The gateway reply to `GET /transaction/verify/{reference}`:
`httpOk` is `res.ok`, `bodyStatus` the truthiness of `data?.status`,
`txStatus` is `data.data.status` (when a string), and `txAmount` is
`data.data.amount` when it is a number, otherwise `none`. -/
structure GatewayResp where
  httpOk : Bool := true
  bodyStatus : Bool := true
  txStatus : Option String := none
  txAmount : Option ℚ := none
  deriving Repr, DecidableEq

/-- Result of `verifyPaystackReference` as the order handler consumes it. -/
structure VerifyResult where
  ok : Bool
  amount : Option ℚ
  deriving Repr, DecidableEq

/-- Function `verifyPaystackReference`: a transport failure or falsy body status maps
to `{ok: false}`; otherwise `ok` is `tx.status === "success"` and `amount`
is the reported amount when numeric, else `null`. -/
def verifyPaystackReference (g : GatewayResp) : VerifyResult :=
  if !g.httpOk || !g.bodyStatus then { ok := false, amount := none }
  else { ok := g.txStatus == some "success", amount := g.txAmount }

/-! ### Order creation (`POST /api/orders`) -/

/-- One entry of the submitted `items` array. -/
structure ItemReq where
  id : Option String := none
  name : String := ""
  quantity : Option ℚ := none
  price : Option ℚ := none
  special_instructions : String := ""
  deriving Repr, DecidableEq

/-- The request body of `POST /api/orders` (after JSON parsing; `none` for a
number field models a value that is not a finite number, `none` for
`paystack_reference` a value that is not a string, and `none` for `items`
a value that is not an array). -/
structure OrderReq where
  customer_name : String := ""
  customer_phone : String := ""
  delivery_address : String := ""
  order_type_raw : String := ""
  subtotal : Option ℚ := none
  delivery_fee : Option ℚ := none
  total : Option ℚ := none
  payment_method : String := ""
  paystack_reference : Option String := none
  special_instructions : String := ""
  items : Option (List ItemReq) := none
  user_id : Option String := none
  deriving Repr, DecidableEq

/-- The five payment methods the handler accepts. -/
def allowedPaymentMethods : List String :=
  ["mtn", "vodafone", "airteltigo", "pay_on_delivery", "paystack"]

/-- The sequence of early-return validations of `POST /api/orders`, up to and
including the payment-method check: `some (code, message)` is the first
`sendError` hit, `none` means validation passed. -/
def validationFailure (req : OrderReq) : Option (Nat × String) :=
  let customer_name := sanitizeString req.customer_name 100
  let customer_phone := sanitizeString req.customer_phone 20
  let delivery_address := sanitizeString req.delivery_address 500
  let order_type : Option String :=
    if req.order_type_raw == "delivery" || req.order_type_raw == "pickup" then
      some req.order_type_raw
    else none
  let subtotal := sanitizeNumber req.subtotal 0 100000
  let total := sanitizeNumber req.total 0 100000
  let items := req.items.getD []
  if customer_name == "" || customer_name.length < 2 then
    some (400, "Valid customer name is required")
  else if customer_phone == "" || customer_phone.length < 10 then
    some (400, "Valid phone number is required")
  else if order_type.isNone then
    some (400, "Invalid order type")
  else if order_type == some "delivery"
      && (delivery_address == "" || delivery_address.length < 5) then
    some (400, "Delivery address is required")
  else if !(jsNumTruthy subtotal) || jsLeZero subtotal then
    some (400, "Invalid subtotal")
  else if !(jsNumTruthy total) || jsLeZero total then
    some (400, "Invalid total")
  else if items.length == 0 then
    some (400, "Order must contain at least one item")
  else if items.length > 50 then
    some (400, "Order cannot contain more than 50 items")
  else if !(allowedPaymentMethods.contains req.payment_method) then
    some (400, "Invalid payment method")
  else none

/-- The paystack branch of the handler: `some (code, message)` is a
rejection; `Option.none` means the payment was verified, so
`payment_status` becomes `"paid"`.  `total` is the sanitized order total. -/
def paystackGate (paystack_reference : Option String) (gw : GatewayResp)
    (total : ℚ) : Option (Nat × String) :=
  match paystack_reference with
  | none => some (400, "Payment reference required")
  | some r =>
    if r.length == 0 then some (400, "Payment reference required")
    else
      let verified := verifyPaystackReference gw
      if !verified.ok then some (402, "Payment not completed")
      else
        let expectedMinor : ℤ := jsRound (total * 100)
        match verified.amount with
        | some a =>
          if a ≠ (expectedMinor : ℚ) then some (400, "Payment amount mismatch")
          else none
        | none => none

/-- The order row INSERT of `POST /api/orders`. -/
structure PersistedOrder where
  id : String
  user_id : Option String
  customer_name : String
  customer_phone : String
  delivery_address : String
  order_type : String
  status : String
  subtotal : Option ℚ
  delivery_fee : Option ℚ
  total : Option ℚ
  payment_method : String
  payment_status : String
  special_instructions : String
  deriving Repr, DecidableEq

/-- One row of the `order_items` INSERT loop. -/
structure PersistedItem where
  order_id : String
  menu_item_id : Option String
  item_name : String
  quantity : ℚ
  unit_price : ℚ
  special_instructions : Option String
  deriving Repr, DecidableEq

/-- One iteration of the item-insert loop: sanitize the fields and either
skip the item (`continue` when
`!itemName || itemQuantity <= 0 || !itemPrice || itemPrice <= 0`) or insert
a row. -/
def insertedItem (orderId : String) (it : ItemReq) : Option PersistedItem :=
  let itemName := sanitizeString it.name 200
  let itemQuantity := sanitizeNumber it.quantity 1 100
  let itemPrice := sanitizeNumber it.price 0 10000
  let itemSpecialInstructions := sanitizeString it.special_instructions 500
  if itemName == "" || jsLeZero itemQuantity
      || !(jsNumTruthy itemPrice) || jsLeZero itemPrice then
    none
  else
    some { order_id := orderId,
           menu_item_id := jsStringOrNull it.id,
           item_name := itemName,
           quantity := itemQuantity.getD 0,
           unit_price := itemPrice.getD 0,
           special_instructions :=
             if itemSpecialInstructions == "" then none
             else some itemSpecialInstructions }

/-- Outcome of one `POST /api/orders` request: HTTP code, the body of the
first `sendError` (empty on success), the order row written (`none` when the
request was rejected before the INSERT), the item rows written, and the
events broadcast. -/
structure CreateResp where
  code : Nat
  msg : String
  order : Option PersistedOrder
  items : List PersistedItem
  events : List Event
  deriving Repr, DecidableEq

/-- Rejection response of `POST /api/orders` (no order row, no items, no
broadcast). -/
def createReject (c : Nat) (m : String) : CreateResp :=
  { code := c, msg := m, order := none, items := [], events := [] }

/-- Handler of `POST /api/orders`: sanitize and validate the body; for the `paystack`
method run the payment gate; insert the order row (id `orderId`, status
`pending`); insert the item rows one at a time, skipping invalid ones; reply
201 with the order and broadcast `order_created`. -/
def createOrder (req : OrderReq) (gw : GatewayResp) (orderId : String) :
    CreateResp :=
  match validationFailure req with
  | some (c, m) => createReject c m
  | none =>
    let total := (sanitizeNumber req.total 0 100000).getD 0
    let paystack_reference := req.paystack_reference.map (fun r => sanitizeString r 100)
    let payGate : Option (Nat × String) :=
      if req.payment_method == "paystack" then
        paystackGate paystack_reference gw total
      else none
    match payGate with
    | some (c, m) => createReject c m
    | none =>
      let payment_status :=
        if req.payment_method == "paystack" then "paid" else "pending"
      let order : PersistedOrder :=
        { id := orderId,
          user_id := req.user_id,
          customer_name := sanitizeString req.customer_name 100,
          customer_phone := sanitizeString req.customer_phone 20,
          delivery_address := sanitizeString req.delivery_address 500,
          order_type := req.order_type_raw,
          status := "pending",
          subtotal := sanitizeNumber req.subtotal 0 100000,
          delivery_fee := sanitizeNumber req.delivery_fee 0 10000,
          total := sanitizeNumber req.total 0 100000,
          payment_method := req.payment_method,
          payment_status := payment_status,
          special_instructions := sanitizeString req.special_instructions 500 }
      { code := 201, msg := "",
        order := some order,
        items := (req.items.getD []).filterMap (insertedItem orderId),
        events := [{ type := "order_created", order_id := some orderId }] }

/-! ### Login attempt tracker -/

/-- One value of the in-memory `loginAttempts` map:
`{ count, blockedUntil }`; `blockedUntil = 0` is the falsy unset value. -/
structure AttemptRec where
  count : Nat
  blockedUntil : Nat
  deriving Repr, DecidableEq

/-- The in-memory `loginAttempts` map, keyed by `email|ip`. -/
abbrev LoginMap := List (String × AttemptRec)

/-- Function `getKey`: the map key, email and ip joined by a bar, with the
empty ip replaced by the string unknown. -/
def getKey (email ip : String) : String :=
  email ++ "|" ++ (if ip == "" then "unknown" else ip)

/-- Config fallback `config.MAX_LOGIN_ATTEMPTS || 5`. -/
def MAX_LOGIN_ATTEMPTS : Nat := 5

/-- Config fallback `config.LOGIN_BLOCK_DURATION_MS || 15 * 60000`. -/
def LOGIN_BLOCK_DURATION_MS : Nat := 15 * 60000

/-- JS `Map.prototype.get`. -/
def loginGet (m : LoginMap) (k : String) : Option AttemptRec :=
  (m.find? (fun p => p.1 == k)).map Prod.snd

/-- JS `Map.prototype.set`: replace the value in place when the key exists,
append a new entry otherwise. -/
def loginSet : LoginMap → String → AttemptRec → LoginMap
  | [], k, v => [(k, v)]
  | p :: rest, k, v =>
    if p.1 == k then (k, v) :: rest else p :: loginSet rest k v

/-- Function `isBlocked`: blocked while the record exists, its lockout
instant is set (nonzero) and now is before it. -/
def isBlocked (m : LoginMap) (email ip : String) (now : Nat) : Bool :=
  match loginGet m (getKey email ip) with
  | none => false
  | some r => r.blockedUntil ≠ 0 && now < r.blockedUntil

/-- Function `recordFailure`: increment the count; upon reaching
`MAX_LOGIN_ATTEMPTS`, set `blockedUntil := now + LOGIN_BLOCK_DURATION_MS`
and reset the count to 0. -/
def recordFailure (m : LoginMap) (email ip : String) (now : Nat) : LoginMap :=
  let key := getKey email ip
  let r := (loginGet m key).getD { count := 0, blockedUntil := 0 }
  let r1 : AttemptRec := { r with count := r.count + 1 }
  let r2 : AttemptRec :=
    if MAX_LOGIN_ATTEMPTS ≤ r1.count then
      { count := 0, blockedUntil := now + LOGIN_BLOCK_DURATION_MS }
    else r1
  loginSet m key r2

/-- Function `clearFailures`: delete the record of the key entirely. -/
def clearFailures (m : LoginMap) (email ip : String) : LoginMap :=
  m.filter (fun p => p.1 != getKey email ip)

/-- Outcome of one `POST /api/auth/login` request for a body that parses to
`(email, password)`: response code, whether the stored password hash was
consulted (`bcrypt.compare` reached), and the tracker map afterwards. -/
structure LoginOutcome where
  code : Nat
  passwordChecked : Bool
  attempts : LoginMap
  deriving Repr

/-- Handler of `POST /api/auth/login` (after schema parsing and email normalization):
a blocked key is rejected 429 before the user row or password hash is
consulted; an unknown user or wrong password records a failure and gets 401;
success clears the record of the key.  `userExists` models a non-empty user-row
SELECT and `passwordOk` the `bcrypt.compare` result. -/
def loginHandler (m : LoginMap) (email ip : String) (now : Nat)
    (userExists passwordOk : Bool) : LoginOutcome :=
  if isBlocked m email ip now then
    { code := 429, passwordChecked := false, attempts := m }
  else if !userExists then
    { code := 401, passwordChecked := false,
      attempts := recordFailure m email ip now }
  else if !passwordOk then
    { code := 401, passwordChecked := true,
      attempts := recordFailure m email ip now }
  else
    { code := 200, passwordChecked := true,
      attempts := clearFailures m email ip }

/-! ### Event broadcast hub (`sseClients` / `broadcast` /
`GET /api/orders/stream`) -/

/-- One SSE frame written to a subscriber: the synthetic `init` frame or a
broadcast event. -/
inductive Frame where
  | init : Frame
  | ev : Event → Frame
  deriving Repr, DecidableEq

/-- An action touching the hub: a client connecting to
`GET /api/orders/stream`, a client `close` event (removal from `sseClients`),
or a `broadcast`. -/
inductive HubAction where
  | connect : Nat → HubAction
  | disconnect : Nat → HubAction
  | publish : Event → HubAction
  deriving Repr, DecidableEq

/-- Whether a hub action is a `broadcast`. -/
def isPublish : HubAction → Bool
  | HubAction.publish _ => true
  | _ => false

/-- The hub state: the `sseClients` registry and the log of every frame
written so far, as (client, frame) pairs in write order. -/
structure HubState where
  clients : List Nat
  delivered : List (Nat × Frame)
  deriving Repr, DecidableEq

/-- The hub before any connection. -/
def emptyHub : HubState :=
  { clients := [], delivered := [] }

/-- One hub action: `connect` writes the `init` frame to the new client and
adds it to `sseClients`; `disconnect` removes the client; `publish` writes
the serialized event to every currently registered client. -/
def hubStep (s : HubState) : HubAction → HubState
  | HubAction.connect c =>
    { clients := s.clients ++ [c],
      delivered := s.delivered ++ [(c, Frame.init)] }
  | HubAction.disconnect c =>
    { clients := s.clients.filter (fun d => d ≠ c),
      delivered := s.delivered }
  | HubAction.publish e =>
    { clients := s.clients,
      delivered := s.delivered ++ s.clients.map (fun c => (c, Frame.ev e)) }

/-- Run a sequence of hub actions. -/
def hubRun (s : HubState) (acts : List HubAction) : HubState :=
  acts.foldl hubStep s

/-- The frames written to client `c`, in order. -/
def framesTo (c : Nat) (s : HubState) : List Frame :=
  (s.delivered.filter (fun p => p.1 == c)).map Prod.snd

/-- Handler of `GET /api/orders/stream`: the route is registered without the `auth`
middleware; the handler never reads a token or user, so the connection is
accepted for every request and the `authToken` argument is unused. -/
def streamSubscribe (s : HubState) (c : Nat) (_authToken : Option String) :
    HubState :=
  hubStep s (HubAction.connect c)

/-! ### Concrete inputs used by the claim theorems -/

/-- A concrete orders table holding one `delivered` order, used to exercise
the status-change handler. -/
def exDbC1 : OrderDb :=
  [("o1", { user_id := some "u1", status := "delivered",
            customer_name := "Ama Mensah",
            customer_phone := "0240000000", total := some 80 })]

/-- A concrete orders table that has no order with id `o2`. -/
def exDbC9 : OrderDb :=
  [("o1", { user_id := some "u1", status := "pending",
            customer_name := "Kofi Boateng",
            customer_phone := "0551234567", total := some 45 })]

def exRowC4 : OrderRow :=
  { user_id := some "u1", status := "pending", customer_name := "Yaw Owusu",
    customer_phone := "0209998888", total := some 120 }

def exDbC4 : OrderDb := [("o1", exRowC4)]

def exPreC6 : List HubAction :=
  [HubAction.publish { type := "order_created", order_id := some "o1" },
   HubAction.connect 1]

def exRowC10 : OrderRow :=
  { user_id := some "u9", status := "pending", customer_name := "Esi Asante",
    customer_phone := "0261112222", total := some 60 }

def exDbC10 : OrderDb := [("o9", exRowC10)]

/-- The minor-unit amount the handler compares against:
`Math.round(total * 100)` computed from the sanitized total. -/
def expectedMinor (req : OrderReq) : ℤ :=
  jsRound ((sanitizeNumber req.total 0 100000).getD 0 * 100)

/-- A valid line item used by the concrete order submissions. -/
def exItem : ItemReq :=
  { name := "Jollof Rice", quantity := some 2, price := some 35 }

/-- A gateway verify response that reports success but no numeric amount. -/
def exGwC2 : GatewayResp :=
  { httpOk := true, bodyStatus := true, txStatus := some "success", txAmount := none }

/-- A valid paystack order submission with total 80. -/
def exReqC2 : OrderReq :=
  { customer_name := "Ama Mensah", customer_phone := "0240000000",
    delivery_address := "12 High Street, Accra", order_type_raw := "delivery",
    subtotal := some 70, delivery_fee := some 10, total := some 80,
    payment_method := "paystack", paystack_reference := some "ref-c2-001",
    items := some [exItem] }

/-- A pay-on-delivery submission whose total 75 differs from
subtotal 70 + delivery fee 10. -/
def exReqC8 : OrderReq :=
  { customer_name := "Ama Mensah", customer_phone := "0240000000",
    delivery_address := "12 High Street, Accra", order_type_raw := "delivery",
    subtotal := some 70, delivery_fee := some 10, total := some 75,
    payment_method := "pay_on_delivery", items := some [exItem] }

/-- A submission whose item list holds a quantity-0 item plus a valid one. -/
def exReqC3 : OrderReq :=
  { customer_name := "Ama Mensah", customer_phone := "0240000000",
    order_type_raw := "pickup",
    subtotal := some 40, delivery_fee := some 0, total := some 40,
    payment_method := "mtn",
    items := some [{ name := "Pizza", quantity := some 0, price := some 5 }, exItem] }

/-- A submission whose entire (non-empty) item list fails the per-item
checks (its only item has a non-numeric quantity). -/
def exReqC3b : OrderReq :=
  { customer_name := "Ama Mensah", customer_phone := "0240000000",
    order_type_raw := "pickup",
    subtotal := some 40, delivery_fee := some 0, total := some 40,
    payment_method := "mtn",
    items := some [{ name := "Pizza", quantity := none, price := some 5 }] }

/-! ## Helper lemmas -/

theorem storeGet_cons (k : String) (o : OrderRow) (rest : OrderDb) (id : String) :
    storeGet ((k, o) :: rest) id = if k = id then some o else storeGet rest id := by
  by_cases hk : k = id <;> simp [storeGet, List.find?_cons, hk]

theorem storeSetStatus_cons (k : String) (o : OrderRow) (rest : OrderDb)
    (id status : String) :
    storeSetStatus ((k, o) :: rest) id status
      = (if k = id then (k, { o with status := status }) else (k, o))
          :: storeSetStatus rest id status := by
  by_cases hk : k = id <;> simp [storeSetStatus, hk]

theorem storeSetStatus_of_get_none (db : OrderDb) (id status : String)
    (h : storeGet db id = none) : storeSetStatus db id status = db := by
  induction db with
  | nil => rfl
  | cons p rest ih =>
    rcases p with ⟨k, o⟩
    by_cases hk : k = id
    · rw [storeGet_cons, if_pos hk] at h
      simp at h
    · rw [storeGet_cons, if_neg hk] at h
      rw [storeSetStatus_cons, if_neg hk, ih h]

theorem storeGet_setStatus_self (db : OrderDb) (id status : String)
    (o : OrderRow) (h : storeGet db id = some o) :
    storeGet (storeSetStatus db id status) id = some { o with status := status } := by
  induction db with
  | nil => simp [storeGet] at h
  | cons p rest ih =>
    rcases p with ⟨k, o2⟩
    by_cases hk : k = id
    · rw [storeGet_cons, if_pos hk] at h
      have h2 : o2 = o := by simpa using h
      subst h2
      rw [storeSetStatus_cons, if_pos hk, storeGet_cons, if_pos hk]
    · rw [storeGet_cons, if_neg hk] at h
      rw [storeSetStatus_cons, if_neg hk, storeGet_cons, if_neg hk]
      exact ih h

/-! ## Claim C1: status transitions -/

/-- C1 counterexample: the order `o1` is currently `delivered`, the pair
(`delivered`, `preparing`) is not an edge of the specified state machine,
yet `PATCH /api/orders/o1/status` with target `preparing` answers 200 and
rewrites the row — the handler checks only that the target status is in the
allowed list, never the current status. -/
theorem C1_counterexample :
    storeGet exDbC1 "o1" = some { user_id := some "u1", status := "delivered",
                                  customer_name := "Ama Mensah",
                                  customer_phone := "0240000000",
                                  total := some 80 }
    ∧ specEdge "delivered" "preparing" = false
    ∧ (patchOrderStatus exDbC1 "o1" "preparing" false).code = 200
    ∧ storeGet (patchOrderStatus exDbC1 "o1" "preparing" false).db "o1" =
        some { user_id := some "u1", status := "preparing",
               customer_name := "Ama Mensah", customer_phone := "0240000000",
               total := some 80 } := by
  decide

/-- C1 amended: the status-change operation accepts a request iff the target
status belongs to the fixed allowed list
`pending, preparing, ready, out_for_delivery, delivered, cancelled`,
regardless of the current status of the order (the current row is only read, for
the 404 check, when the target is `cancelled`); on acceptance the row has its
status overwritten with the target. -/
theorem C1_amended (db : OrderDb) (id status : String) (b : Bool)
    (h : status = "cancelled" → (storeGet db id).isSome) :
    ((patchOrderStatus db id status b).code = 200 ↔ status ∈ allowedStatuses)
    ∧ (status ∈ allowedStatuses →
        (patchOrderStatus db id status b).db = storeSetStatus db id status) := by
  by_cases hmem : status ∈ allowedStatuses
  · have hc : allowedStatuses.contains status = true := by
      simpa [List.elem_iff] using hmem
    by_cases hcan : status = "cancelled"
    · subst hcan
      rcases ho : storeGet db id with _ | o
      · simp [ho] at h
      · constructor
        · simp [patchOrderStatus, hc, ho, hmem]
        · intro _
          simp [patchOrderStatus, hc, ho, hmem]
    · have hcan' : (status == "cancelled") = false := by
        simpa using hcan
      constructor
      · simp [patchOrderStatus, hc, hcan', hmem]
      · intro _
        simp [patchOrderStatus, hc, hcan', hmem]
  · have hc : allowedStatuses.contains status = false := by
      rcases hb : allowedStatuses.contains status with _ | _
      · rfl
      · exact absurd (by simpa [List.elem_iff] using hb) hmem
    constructor
    · simp [patchOrderStatus, hc, hmem]
    · intro hm
      exact absurd hm hmem

/-- C1 witness: `pending → preparing` on the one-order table is accepted. -/
theorem C1_amended_witness :
    (patchOrderStatus exDbC1 "o1" "preparing" false).code = 200 :=
  (C1_amended exDbC1 "o1" "preparing" false (by decide)).1.mpr (by decide)

/-! ## Claim C9: non-cancel status change on a nonexistent order -/

/-- C9: for a target status in the allowed list other than `cancelled`, the
status-change handler never reads the current row, so on a nonexistent order
id it still answers 200 `{ok: true}`, broadcasts one `order_status_updated`
event, and leaves the table unchanged. -/
theorem C9_ghost_status_update (db : OrderDb) (id status : String) (b : Bool)
    (h1 : status ∈ allowedStatuses) (h2 : status ≠ "cancelled")
    (h3 : storeGet db id = none) :
    (patchOrderStatus db id status b).code = 200
    ∧ (patchOrderStatus db id status b).db = db
    ∧ (patchOrderStatus db id status b).events =
        [{ type := "order_status_updated", order_id := some id,
           status := some status }]
    ∧ (patchOrderStatus db id status b).notifAttempts = [] := by
  have hc : allowedStatuses.contains status = true := by
    simpa [List.elem_iff] using h1
  have hcan : (status == "cancelled") = false := by
    simpa using h2
  simp [patchOrderStatus, hc, hcan, h1, storeSetStatus_of_get_none db id status h3]

/-- C9 witness: target `preparing` on an id absent from the one-order
table. -/
theorem C9_ghost_status_update_witness :
    (patchOrderStatus exDbC9 "o2" "preparing" false).code = 200
    ∧ (patchOrderStatus exDbC9 "o2" "preparing" false).db = exDbC9 :=
  ⟨(C9_ghost_status_update exDbC9 "o2" "preparing" false (by decide)
      (by decide) (by decide)).1,
   (C9_ghost_status_update exDbC9 "o2" "preparing" false (by decide)
      (by decide) (by decide)).2.1⟩

theorem C7_side_effects_isolated (db : OrderDb) (id status userId : String)
    (b : Bool) :
    ((patchOrderStatus db id status b).code = (patchOrderStatus db id status false).code
      ∧ (patchOrderStatus db id status b).db = (patchOrderStatus db id status false).db
      ∧ (patchOrderStatus db id status b).events = (patchOrderStatus db id status false).events)
    ∧ ((cancelOrder db id userId b).code = (cancelOrder db id userId false).code
      ∧ (cancelOrder db id userId b).db = (cancelOrder db id userId false).db
      ∧ (cancelOrder db id userId b).events = (cancelOrder db id userId false).events)
    ∧ (∀ p : Event, adminNotificationInsert p true = Except.error "insert failed"
        ∧ createAdminNotification p true = []) := by
  refine ⟨?_, ?_, ?_⟩
  · by_cases hmem : status ∈ allowedStatuses <;>
      rcases hs : (status == "cancelled") with _ | _ <;>
      rcases ho : storeGet db id with _ | o <;>
      simp [patchOrderStatus, hmem, hs, ho]
  · rcases ho : storeGet db id with _ | o
    · simp [cancelOrder, ho]
    · by_cases hu : o.user_id = some userId <;>
        by_cases hs : o.status = "pending" <;>
        simp [cancelOrder, ho, hu, hs]
  · intro p
    exact ⟨rfl, rfl⟩

theorem C4_customer_cancel (db : OrderDb) (id userId : String) :
    ((cancelOrder db id userId false).code = 200 ↔
      ∃ o, storeGet db id = some o ∧ o.user_id = some userId ∧ o.status = "pending")
    ∧ (storeGet db id = none → (cancelOrder db id userId false).code = 404)
    ∧ (∀ o, storeGet db id = some o → o.user_id ≠ some userId →
        (cancelOrder db id userId false).code = 403)
    ∧ (∀ o, storeGet db id = some o → o.user_id = some userId → o.status ≠ "pending" →
        (cancelOrder db id userId false).code = 400)
    ∧ (∀ o, storeGet db id = some o → o.user_id = some userId → o.status = "pending" →
        storeGet (cancelOrder db id userId false).db id = some { o with status := "cancelled" }
        ∧ ((cancelOrder db id userId false).events.filter
            (fun e => e.type == "order_cancelled")).length = 1
        ∧ (cancelOrder db id userId false).notifAttempts = [cancelledPayload id o]
        ∧ (cancelOrder db id userId false).notifRows = [cancelledPayload id o]) := by
  refine ⟨?_, ?_, ?_, ?_, ?_⟩
  · rcases ho : storeGet db id with _ | o
    · simp [cancelOrder, ho]
    · by_cases hu : o.user_id = some userId
      · by_cases hs : o.status = "pending"
        · simp [cancelOrder, ho, hu, hs]
        · simp [cancelOrder, ho, hu, hs]
      · simp [cancelOrder, ho, hu]
  · intro h
    simp [cancelOrder, h]
  · intro o ho hu
    simp [cancelOrder, ho, hu]
  · intro o ho hu hs
    simp [cancelOrder, ho, hu, hs]
  · intro o ho hu hs
    refine ⟨?_, ?_, ?_, ?_⟩
    · have hdb : (cancelOrder db id userId false).db = storeSetStatus db id "cancelled" := by
        simp [cancelOrder, ho, hu, hs]
      rw [hdb]
      exact storeGet_setStatus_self db id "cancelled" o ho
    · simp [cancelOrder, ho, hu, hs, cancelledPayload]
    · simp [cancelOrder, ho, hu, hs]
    · simp [cancelOrder, ho, hu, hs, createAdminNotification, adminNotificationInsert]

theorem C4_customer_cancel_witness :
    (cancelOrder exDbC4 "o1" "u1" false).code = 200 :=
  (C4_customer_cancel exDbC4 "o1" "u1").1.mpr ⟨exRowC4, by decide, rfl, rfl⟩

theorem loginGet_cons (k2 : String) (v : AttemptRec) (rest : LoginMap) (k : String) :
    loginGet ((k2, v) :: rest) k = if k2 = k then some v else loginGet rest k := by
  by_cases hk : k2 = k <;> simp [loginGet, List.find?_cons, hk]

theorem loginGet_loginSet_self (m : LoginMap) (k : String) (v : AttemptRec) :
    loginGet (loginSet m k v) k = some v := by
  induction m with
  | nil => simp [loginSet, loginGet, List.find?_cons]
  | cons p rest ih =>
    rcases p with ⟨k2, v2⟩
    by_cases hk : k2 = k
    · simp [loginSet, hk, loginGet_cons]
    · simp [loginSet, hk, loginGet_cons, ih]

theorem loginGet_clearFailures_self (m : LoginMap) (email ip : String) :
    loginGet (clearFailures m email ip) (getKey email ip) = none := by
  induction m with
  | nil => rfl
  | cons p rest ih =>
    rcases p with ⟨k2, v2⟩
    by_cases hk : k2 = getKey email ip
    · simpa [clearFailures, List.filter_cons, hk] using ih
    · simpa [clearFailures, List.filter_cons, hk, loginGet_cons] using ih

theorem recordFailure_lookup_none (m : LoginMap) (email ip : String)
    (now : Nat) (h : loginGet m (getKey email ip) = none) :
    loginGet (recordFailure m email ip now) (getKey email ip)
      = some { count := 1, blockedUntil := 0 } := by
  simp [recordFailure, h, loginGet_loginSet_self, MAX_LOGIN_ATTEMPTS]

theorem recordFailure_lookup (m : LoginMap) (email ip : String) (now : Nat)
    (r : AttemptRec) (h : loginGet m (getKey email ip) = some r) :
    loginGet (recordFailure m email ip now) (getKey email ip)
      = some (if MAX_LOGIN_ATTEMPTS ≤ r.count + 1 then
                { count := 0, blockedUntil := now + LOGIN_BLOCK_DURATION_MS }
              else { count := r.count + 1, blockedUntil := r.blockedUntil }) := by
  simp [recordFailure, h, loginGet_loginSet_self]

theorem C5_login_lockout (m : LoginMap) (email ip : String)
    (t1 t2 t3 t4 t5 : Nat)
    (h : loginGet m (getKey email ip) = none) :
    (loginGet (recordFailure (recordFailure (recordFailure (recordFailure
        (recordFailure m email ip t1) email ip t2) email ip t3) email ip t4)
        email ip t5) (getKey email ip)
      = some { count := 0, blockedUntil := t5 + LOGIN_BLOCK_DURATION_MS })
    ∧ (∀ now userExists passwordOk,
        now < t5 + LOGIN_BLOCK_DURATION_MS →
        loginHandler (recordFailure (recordFailure (recordFailure (recordFailure
            (recordFailure m email ip t1) email ip t2) email ip t3) email ip t4)
            email ip t5) email ip now userExists passwordOk
          = { code := 429, passwordChecked := false,
              attempts := recordFailure (recordFailure (recordFailure (recordFailure
                (recordFailure m email ip t1) email ip t2) email ip t3) email ip t4)
                email ip t5 })
    ∧ (∀ (m2 : LoginMap) (now : Nat), isBlocked m2 email ip now = false →
        (loginHandler m2 email ip now true true).code = 200
        ∧ loginGet (loginHandler m2 email ip now true true).attempts
            (getKey email ip) = none) := by
  have h1 := recordFailure_lookup_none m email ip t1 h
  have h2 : loginGet (recordFailure (recordFailure m email ip t1) email ip t2)
      (getKey email ip) = some { count := 2, blockedUntil := 0 } := by
    rw [recordFailure_lookup _ _ _ _ _ h1]
    simp [MAX_LOGIN_ATTEMPTS]
  have h3 : loginGet (recordFailure (recordFailure (recordFailure m email ip t1)
      email ip t2) email ip t3) (getKey email ip)
      = some { count := 3, blockedUntil := 0 } := by
    rw [recordFailure_lookup _ _ _ _ _ h2]
    simp [MAX_LOGIN_ATTEMPTS]
  have h4 : loginGet (recordFailure (recordFailure (recordFailure (recordFailure
      m email ip t1) email ip t2) email ip t3) email ip t4) (getKey email ip)
      = some { count := 4, blockedUntil := 0 } := by
    rw [recordFailure_lookup _ _ _ _ _ h3]
    simp [MAX_LOGIN_ATTEMPTS]
  have h5 : loginGet (recordFailure (recordFailure (recordFailure (recordFailure
      (recordFailure m email ip t1) email ip t2) email ip t3) email ip t4)
      email ip t5) (getKey email ip)
      = some { count := 0, blockedUntil := t5 + LOGIN_BLOCK_DURATION_MS } := by
    rw [recordFailure_lookup _ _ _ _ _ h4]
    simp [MAX_LOGIN_ATTEMPTS]
  refine ⟨h5, ?_, ?_⟩
  · intro now userExists passwordOk hn
    have hbu : t5 + LOGIN_BLOCK_DURATION_MS ≠ 0 := by
      simp [LOGIN_BLOCK_DURATION_MS]
    have hb : isBlocked (recordFailure (recordFailure (recordFailure (recordFailure
        (recordFailure m email ip t1) email ip t2) email ip t3) email ip t4)
        email ip t5) email ip now = true := by
      simp [isBlocked, h5, hn, hbu]
    simp [loginHandler, hb]
  · intro m2 now hb
    constructor
    · simp [loginHandler, hb]
    · simp [loginHandler, hb, loginGet_clearFailures_self]

theorem C5_login_lockout_witness :
    loginGet (recordFailure (recordFailure (recordFailure (recordFailure
        (recordFailure [] "a@b.com" "1.2.3.4" 100) "a@b.com" "1.2.3.4" 200)
        "a@b.com" "1.2.3.4" 300) "a@b.com" "1.2.3.4" 400) "a@b.com" "1.2.3.4" 500)
      (getKey "a@b.com" "1.2.3.4")
      = some { count := 0, blockedUntil := 500 + LOGIN_BLOCK_DURATION_MS } :=
  (C5_login_lockout [] "a@b.com" "1.2.3.4" 100 200 300 400 500 (by rfl)).1

theorem hubRun_append (s : HubState) (l1 l2 : List HubAction) :
    hubRun s (l1 ++ l2) = hubRun (hubRun s l1) l2 :=
  List.foldl_append hubStep s l1 l2

theorem framesTo_connect_self (s : HubState) (c : Nat) :
    framesTo c (hubStep s (HubAction.connect c)) = framesTo c s ++ [Frame.init] := by
  simp [hubStep, framesTo, List.filter_append]

theorem hubRun_no_connect (acts : List HubAction) (c : Nat) :
    ∀ s : HubState, c ∉ s.clients → (∀ a ∈ acts, a ≠ HubAction.connect c) →
    framesTo c (hubRun s acts) = framesTo c s ∧ c ∉ (hubRun s acts).clients := by
  induction acts with
  | nil => exact fun s hc _ => ⟨rfl, hc⟩
  | cons a rest ih =>
    intro s hc ha
    have harest : ∀ b ∈ rest, b ≠ HubAction.connect c :=
      fun b hb => ha b (List.mem_cons_of_mem a hb)
    have hstep : framesTo c (hubStep s a) = framesTo c s
        ∧ c ∉ (hubStep s a).clients := by
      cases a with
      | connect d =>
        have hd : d ≠ c := by
          intro hdc
          exact ha (HubAction.connect d) (List.mem_cons_self _ _) (by rw [hdc])
        constructor
        · simp [hubStep, framesTo, List.filter_append, hd]
        · simp [hubStep]
          exact ⟨hc, fun hcd => hd hcd.symm⟩
      | disconnect d =>
        constructor
        · simp [hubStep, framesTo]
        · simp [hubStep]
          intro hmem
          exact absurd hmem hc
      | publish e =>
        have hnil : List.filter (fun p => p.1 == c)
            (s.clients.map (fun d => (d, Frame.ev e))) = [] := by
          rw [List.filter_eq_nil_iff]
          rintro ⟨d, f⟩ hmem
          simp only [List.mem_map] at hmem
          rcases hmem with ⟨d2, hd2, heq⟩
          cases heq
          simp only [beq_iff_eq, decide_eq_true_eq]
          intro hdc
          rw [hdc] at hd2
          exact hc hd2
        constructor
        · simp [hubStep, framesTo, List.filter_append, hnil]
        · simpa [hubStep] using hc
    have hrest := ih (hubStep s a) hstep.2 harest
    exact ⟨by rw [show hubRun s (a :: rest) = hubRun (hubStep s a) rest from rfl,
                  hrest.1, hstep.1],
           by rw [show hubRun s (a :: rest) = hubRun (hubStep s a) rest from rfl];
              exact hrest.2⟩

theorem hubRun_no_publish_no_connect (acts : List HubAction) (c : Nat) :
    ∀ s : HubState,
    (∀ a ∈ acts, a ≠ HubAction.connect c ∧ isPublish a = false) →
    framesTo c (hubRun s acts) = framesTo c s := by
  induction acts with
  | nil => exact fun _ _ => rfl
  | cons a rest ih =>
    intro s ha
    have ha0 := ha a (List.mem_cons_self a rest)
    have harest : ∀ b ∈ rest, b ≠ HubAction.connect c ∧ isPublish b = false :=
      fun b hb => ha b (List.mem_cons_of_mem a hb)
    have hstep : framesTo c (hubStep s a) = framesTo c s := by
      cases a with
      | connect d =>
        have hd : d ≠ c := by
          intro hdc
          exact ha0.1 (by rw [hdc])
        simp [hubStep, framesTo, List.filter_append, hd]
      | disconnect d => simp [hubStep, framesTo]
      | publish e => simp [isPublish] at ha0
    rw [show hubRun s (a :: rest) = hubRun (hubStep s a) rest from rfl,
       ih (hubStep s a) harest, hstep]

theorem C6_stream_no_replay (pre post : List HubAction) (c : Nat)
    (hpre : ∀ a ∈ pre, a ≠ HubAction.connect c)
    (hpost : ∀ a ∈ post, a ≠ HubAction.connect c ∧ isPublish a = false) :
    framesTo c (hubRun emptyHub pre) = []
    ∧ framesTo c (hubRun emptyHub (pre ++ [HubAction.connect c])) = [Frame.init]
    ∧ framesTo c (hubRun emptyHub (pre ++ HubAction.connect c :: post)) = [Frame.init]
    ∧ (∀ e, HubAction.publish e ∈ pre →
        Frame.ev e ∉ framesTo c (hubRun emptyHub (pre ++ HubAction.connect c :: post))) := by
  have hc0 : c ∉ emptyHub.clients := by simp [emptyHub]
  have h1 := hubRun_no_connect pre c emptyHub hc0 hpre
  have hpre0 : framesTo c (hubRun emptyHub pre) = [] := by
    rw [h1.1]
    rfl
  have h2 : framesTo c (hubRun emptyHub (pre ++ [HubAction.connect c]))
      = [Frame.init] := by
    rw [hubRun_append]
    rw [show hubRun (hubRun emptyHub pre) [HubAction.connect c]
          = hubStep (hubRun emptyHub pre) (HubAction.connect c) from rfl]
    rw [framesTo_connect_self, hpre0]
    rfl
  have h3 : framesTo c (hubRun emptyHub (pre ++ HubAction.connect c :: post))
      = [Frame.init] := by
    have : pre ++ HubAction.connect c :: post
        = (pre ++ [HubAction.connect c]) ++ post := by simp
    rw [this, hubRun_append,
       hubRun_no_publish_no_connect post c _ hpost, h2]
  refine ⟨hpre0, h2, h3, ?_⟩
  intro e _
  rw [h3]
  simp

theorem C6_stream_no_replay_witness :
    framesTo 2 (hubRun emptyHub exPreC6) = []
    ∧ framesTo 2 (hubRun emptyHub (exPreC6 ++ [HubAction.connect 2])) = [Frame.init] := by
  have h := C6_stream_no_replay exPreC6 [HubAction.disconnect 1] 2 (by decide) (by decide)
  exact ⟨h.1, h.2.1⟩

theorem C10_stream_unauthenticated (s : HubState) (c : Nat)
    (tok : Option String) (e : Event) :
    streamSubscribe s c tok = streamSubscribe s c none
    ∧ c ∈ (streamSubscribe s c tok).clients
    ∧ (c, Frame.ev e) ∈ (hubStep (streamSubscribe s c tok) (HubAction.publish e)).delivered
    ∧ (∀ (db : OrderDb) (id userId : String) (o : OrderRow) (b : Bool),
        storeGet db id = some o → o.user_id = some userId → o.status = "pending" →
        cancelledPayload id o ∈ (cancelOrder db id userId b).events)
    ∧ (∀ (id : String) (o : OrderRow),
        (cancelledPayload id o).customer_name = some o.customer_name
        ∧ (cancelledPayload id o).customer_phone = some o.customer_phone
        ∧ (cancelledPayload id o).total = o.total) := by
  refine ⟨rfl, ?_, ?_, ?_, fun id o => ⟨rfl, rfl, rfl⟩⟩
  · simp [streamSubscribe, hubStep]
  · show (c, Frame.ev e) ∈ (s.delivered ++ [(c, Frame.init)])
        ++ (s.clients ++ [c]).map (fun d => (d, Frame.ev e))
    apply List.mem_append_right
    apply List.mem_map.mpr
    exact ⟨c, List.mem_append_right _ (List.mem_singleton_self c), rfl⟩
  · intro db id userId o b ho hu hs
    simp [cancelOrder, ho, hu, hs]

theorem C10_stream_unauthenticated_witness :
    cancelledPayload "o9" exRowC10 ∈ (cancelOrder exDbC10 "o9" "u9" false).events :=
  (C10_stream_unauthenticated emptyHub 1 none { type := "x" }).2.2.2.1
    exDbC10 "o9" "u9" exRowC10 false (by decide) rfl rfl

theorem C2_paystack_gate (req : OrderReq) (gw : GatewayResp) (oid : String)
    (hv : validationFailure req = none) (hpm : req.payment_method = "paystack") :
    ((createOrder req gw oid).code = 201 ↔
      ((∃ p, req.paystack_reference.map (fun s => sanitizeString s 100) = some p
          ∧ p.length ≠ 0)
        ∧ (verifyPaystackReference gw).ok = true
        ∧ (∀ a, (verifyPaystackReference gw).amount = some a →
            a = ((expectedMinor req : ℤ) : ℚ))))
    ∧ ((createOrder req gw oid).code = 201 →
        (createOrder req gw oid).order.map PersistedOrder.payment_status = some "paid")
    ∧ ((createOrder req gw oid).code ≠ 201 → (createOrder req gw oid).order = none)
    ∧ (req.paystack_reference.map (fun s => sanitizeString s 100) = none →
        createOrder req gw oid = createReject 400 "Payment reference required")
    ∧ (∀ p, req.paystack_reference.map (fun s => sanitizeString s 100) = some p →
        p.length = 0 →
        createOrder req gw oid = createReject 400 "Payment reference required")
    ∧ ((∃ p, req.paystack_reference.map (fun s => sanitizeString s 100) = some p
          ∧ p.length ≠ 0) →
        (verifyPaystackReference gw).ok = false →
        createOrder req gw oid = createReject 402 "Payment not completed")
    ∧ ((∃ p, req.paystack_reference.map (fun s => sanitizeString s 100) = some p
          ∧ p.length ≠ 0) →
        (verifyPaystackReference gw).ok = true →
        (∃ a, (verifyPaystackReference gw).amount = some a
          ∧ a ≠ ((expectedMinor req : ℤ) : ℚ)) →
        createOrder req gw oid = createReject 400 "Payment amount mismatch") := by
  rcases hp : req.paystack_reference.map (fun s => sanitizeString s 100) with _ | p
  · have hr : createOrder req gw oid = createReject 400 "Payment reference required" := by
      simp [createOrder, hv, hpm, paystackGate, hp]
    refine ⟨?_, ?_, ?_, ?_, ?_, ?_, ?_⟩ <;> simp [hr, createReject, hp]
  · by_cases hlen : p.length = 0
    · have hr : createOrder req gw oid = createReject 400 "Payment reference required" := by
        simp [createOrder, hv, hpm, paystackGate, hp, hlen]
      refine ⟨?_, ?_, ?_, ?_, ?_, ?_, ?_⟩ <;> simp [hr, createReject, hp, hlen]
    · rcases hok : (verifyPaystackReference gw).ok with _ | _
      · have hr : createOrder req gw oid = createReject 402 "Payment not completed" := by
          simp [createOrder, hv, hpm, paystackGate, hp, hlen, hok]
        refine ⟨?_, ?_, ?_, ?_, ?_, ?_, ?_⟩ <;> simp [hr, createReject, hp, hlen, hok]
      · rcases ham : (verifyPaystackReference gw).amount with _ | a
        · have hcode : (createOrder req gw oid).code = 201 := by
            simp [createOrder, hv, hpm, paystackGate, hp, hlen, hok, ham]
          have hpaid : (createOrder req gw oid).order.map PersistedOrder.payment_status
              = some "paid" := by
            simp [createOrder, hv, hpm, paystackGate, hp, hlen, hok, ham]
          refine ⟨?_, fun _ => hpaid, ?_, ?_, ?_, ?_, ?_⟩
          · constructor
            · intro _
              exact ⟨⟨p, rfl, hlen⟩, rfl, fun a ha => by cases ha⟩
            · intro _
              exact hcode
          · intro hne
            exact absurd hcode hne
          · intro h0
            cases h0
          · intro p2 hp2 hl2
            cases hp2
            exact absurd hl2 hlen
          · intro _ hokf
            simp at hokf
          · rintro _ _ ⟨a, ha, _⟩
            cases ha
        · by_cases haq : a = ((expectedMinor req : ℤ) : ℚ)
          · have haq2 : a = ((jsRound ((sanitizeNumber req.total 0 100000).getD 0 * 100) : ℤ) : ℚ) := by
              simpa [expectedMinor] using haq
            have hcode : (createOrder req gw oid).code = 201 := by
              simp [createOrder, hv, hpm, paystackGate, hp, hlen, hok, ham, haq2]
            have hpaid : (createOrder req gw oid).order.map PersistedOrder.payment_status
                = some "paid" := by
              simp [createOrder, hv, hpm, paystackGate, hp, hlen, hok, ham, haq2]
            refine ⟨?_, fun _ => hpaid, ?_, ?_, ?_, ?_, ?_⟩
            · constructor
              · intro _
                refine ⟨⟨p, rfl, hlen⟩, rfl, fun a2 ha2 => ?_⟩
                cases ha2
                exact haq
              · intro _
                exact hcode
            · intro hne
              exact absurd hcode hne
            · intro h0
              cases h0
            · intro p2 hp2 hl2
              cases hp2
              exact absurd hl2 hlen
            · intro _ hokf
              simp at hokf
            · rintro _ _ ⟨a2, ha2, hne2⟩
              cases ha2
              exact absurd haq hne2
          · have haq2 : ¬ a = ((jsRound ((sanitizeNumber req.total 0 100000).getD 0 * 100) : ℤ) : ℚ) := by
              simpa [expectedMinor] using haq
            have hr : createOrder req gw oid = createReject 400 "Payment amount mismatch" := by
              simp [createOrder, hv, hpm, paystackGate, hp, hlen, hok, ham, haq2]
            refine ⟨?_, ?_, ?_, ?_, ?_, ?_, ?_⟩
            · rw [hr]
              constructor
              · intro hc
                cases hc
              · rintro ⟨_, _, hall⟩
                exact absurd (hall a rfl) haq
            · rw [hr]
              intro hc
              cases hc
            · intro _
              rw [hr]
              rfl
            · intro h0
              cases h0
            · intro p2 hp2 hl2
              cases hp2
              exact absurd hl2 hlen
            · intro _ hokf
              simp at hokf
            · intro _ _ _
              exact hr

set_option maxRecDepth 16384 in
/-- C2 counterexample: gateway verification reports success but no numeric
amount, so the verified amount does not equal `round(total * 100)` — the
claim demands rejection, yet the handler skips the mismatch check (it is
guarded by `typeof verified.amount === "number"`), answers 201 and writes
the order row as paid. -/
theorem C2_counterexample :
    (verifyPaystackReference exGwC2).ok = true
    ∧ (verifyPaystackReference exGwC2).amount = none
    ∧ (createOrder exReqC2 exGwC2 "ord-2").code = 201
    ∧ (createOrder exReqC2 exGwC2 "ord-2").order.map PersistedOrder.payment_status
        = some "paid" := by
  decide

set_option maxRecDepth 16384 in
theorem C2_paystack_gate_witness :
    (createOrder exReqC2 exGwC2 "ord-2").code = 201 :=
  ((C2_paystack_gate exReqC2 exGwC2 "ord-2" (by decide) rfl).1).mpr
    ⟨⟨"ref-c2-001", by decide, by decide⟩, by decide,
     fun a ha => by simp [verifyPaystackReference, exGwC2] at ha⟩

set_option maxRecDepth 16384 in
/-- C8 counterexample: subtotal 70, delivery fee 10, total 75 — the claim
demands rejection as inconsistent, yet the handler never compares `total`
with `subtotal + delivery_fee` and accepts the submission with 201, writing
the row with total 75. -/
theorem C8_counterexample :
    (70 : ℚ) + 10 ≠ 75
    ∧ (createOrder exReqC8 {} "ord-8").code = 201
    ∧ (createOrder exReqC8 {} "ord-8").order.map PersistedOrder.total
        = some (some 75)
    ∧ (createOrder exReqC8 {} "ord-8").order.map PersistedOrder.subtotal
        = some (some 70)
    ∧ (createOrder exReqC8 {} "ord-8").order.map PersistedOrder.delivery_fee
        = some (some 10) := by
  refine ⟨by norm_num, by decide, by decide, by decide, by decide⟩

/-- C8 amended: the handler enforces no relation between `total` and
`subtotal + delivery_fee`; any submission that passes field validation with
a non-gateway payment method is accepted (201, order row written), whatever
its monetary sub-components sum to. -/
theorem C8_total_unchecked (req : OrderReq) (gw : GatewayResp) (oid : String)
    (hv : validationFailure req = none) (hpm : req.payment_method ≠ "paystack") :
    (createOrder req gw oid).code = 201
    ∧ (createOrder req gw oid).order.isSome = true := by
  have hpm2 : (req.payment_method == "paystack") = false := by
    simpa using hpm
  constructor <;> simp [createOrder, hv, hpm2]

set_option maxRecDepth 16384 in
theorem C8_total_unchecked_witness :
    (createOrder exReqC8 {} "ord-8").code = 201 :=
  (C8_total_unchecked exReqC8 {} "ord-8" (by decide) (by decide)).1

set_option maxRecDepth 16384 in
/-- C3 counterexample, refuting both halves of the claim.  First, an item
with quantity 0 is not dropped: `sanitizeNumber` clamps the quantity into
`[1,100]`, so the Pizza is inserted with quantity 1 (both submitted items
are persisted).  Second, an order whose entire non-empty item list is
invalid is not rejected: the order row is written (201) with zero item
rows. -/
theorem C3_counterexample :
    ((createOrder exReqC3 {} "ord-3").items.map
        (fun it => (it.item_name, it.quantity)) = [("Pizza", 1), ("Jollof Rice", 2)])
    ∧ (createOrder exReqC3b {} "ord-3b").code = 201
    ∧ (createOrder exReqC3b {} "ord-3b").order.isSome = true
    ∧ (createOrder exReqC3b {} "ord-3b").items = [] := by
  decide

theorem validationFailure_items_nonempty (req : OrderReq)
    (hv : validationFailure req = none) : (req.items.getD []).length ≠ 0 := by
  intro h0
  simp only [validationFailure] at hv
  split_ifs at hv <;> simp_all

theorem C3_item_skip (req : OrderReq) (gw : GatewayResp) (oid : String)
    (hv : validationFailure req = none) (hpm : req.payment_method ≠ "paystack") :
    (createOrder req gw oid).code = 201
    ∧ (createOrder req gw oid).order.isSome = true
    ∧ (createOrder req gw oid).items
        = (req.items.getD []).filterMap (insertedItem oid)
    ∧ (∀ it : ItemReq, sanitizeString it.name 200 = "" ∨ it.quantity = none
        ∨ it.price = none ∨ sanitizeNumber it.price 0 10000 = some 0 →
        insertedItem oid it = none)
    ∧ (∀ it : ItemReq, it.quantity = some 0 → sanitizeString it.name 200 ≠ ""
        → (∀ p, sanitizeNumber it.price 0 10000 = some p → 0 < p)
        → it.price ≠ none →
        (insertedItem oid it).map PersistedItem.quantity = some 1)
    ∧ (∀ req2 : OrderReq, req2.items.getD [] = [] →
        (createOrder req2 gw oid).order = none
        ∧ (createOrder req2 gw oid).items = []) := by
  have hpm2 : (req.payment_method == "paystack") = false := by
    simpa using hpm
  refine ⟨?_, ?_, ?_, ?_, ?_, ?_⟩
  · simp [createOrder, hv, hpm2]
  · simp [createOrder, hv, hpm2]
  · simp [createOrder, hv, hpm2]
  · intro it hcase
    rcases hcase with hn | hq | hp | hp0
    · simp [insertedItem, hn]
    · simp [insertedItem, sanitizeNumber, jsLeZero, hq]
    · simp [insertedItem, sanitizeNumber, jsNumTruthy, jsLeZero, hp]
    · simp [insertedItem, jsNumTruthy, hp0]
  · intro it hq hn hp hpn
    rcases hpr : it.price with _ | pval
    · exact absurd hpr hpn
    · have hq1 : sanitizeNumber it.quantity 1 100 = some 1 := by
        rw [hq]
        simp [sanitizeNumber]
      have hw : 0 < max 0 (min 10000 pval) :=
        hp (max 0 (min 10000 pval)) (by simp [sanitizeNumber, hpr])
      have hwp : sanitizeNumber it.price 0 10000 = some (max 0 (min 10000 pval)) := by
        simp [sanitizeNumber, hpr]
      have hn2 : (sanitizeString it.name 200 == "") = false := by
        simpa using hn
      simp [insertedItem, hq1, hwp, hn2, jsLeZero, jsNumTruthy, ne_of_gt hw,
        not_le.mpr hw]
  · intro req2 h0
    rcases hvf : validationFailure req2 with _ | cm
    · exact absurd (by simp [h0]) (validationFailure_items_nonempty req2 hvf)
    · rcases cm with ⟨c, m⟩
      constructor <;> simp [createOrder, hvf, createReject]

set_option maxRecDepth 16384 in
theorem C3_item_skip_witness :
    (createOrder exReqC3 {} "ord-3").code = 201 :=
  (C3_item_skip exReqC3 {} "ord-3" (by decide) (by decide)).1

end LuxeBite
